import Mathlib

/-!
Shallow embedding of the rustycubes window/GPU-surface lifecycle
(`src/lib.rs`).  GPU side effects (surface configuration, render-pass
recording, redraw requests, loop exit) are made explicit as an `Action`
trace; platform inputs (window inner size, surface capabilities, the
outcome of acquiring the next surface texture, the delivered window
events) are parameters.
-/

namespace RustyCubes

/-- A physical pixel size (`winit::dpi::PhysicalSize<u32>`). -/
structure Size where
  width : Nat
  height : Nat
deriving DecidableEq, Repr

/-- A texture format (`wgpu::TextureFormat`), abstracted to an identifying
code together with the result of its `is_srgb()` query. -/
structure TextureFormat where
  code : Nat
  srgb : Bool
deriving DecidableEq, Repr

/-- Surface capabilities (`wgpu::SurfaceCapabilities`): the supported
formats, presentation modes and alpha-compositing modes, in the order the
backend reports them.  Modes are abstracted to identifying codes. -/
structure SurfaceCaps where
  formats : List TextureFormat
  present_modes : List Nat
  alpha_modes : List Nat
deriving DecidableEq, Repr

/-- The fields of `wgpu::SurfaceConfiguration` the program manipulates. -/
structure SurfaceConfiguration where
  format : TextureFormat
  width : Nat
  height : Nat
  present_mode : Nat
  alpha_mode : Nat
deriving DecidableEq, Repr

/-- A color (`wgpu::Color`), with exact rational components in place of
the source's `f64` literals. -/
structure Color where
  r : ℚ
  g : ℚ
  b : ℚ
  a : ℚ
deriving DecidableEq, Repr

/-- A command recorded into a render pass. -/
inductive PassCmd where
  | setPipeline
  | draw (vertices_start vertices_end instances_start instances_end : Nat)
  | setVertexBuffer (slot : Nat)
  | setIndexBuffer
deriving DecidableEq, Repr

/-- A recorded render pass: its clear color and its command list. -/
structure RenderPass where
  clear : Color
  cmds : List PassCmd
deriving DecidableEq, Repr

/-- The `wgpu::SurfaceError` variants. -/
inductive SurfaceError where
  | timeout
  | outdated
  | lost
  | outOfMemory
  | otherError
deriving DecidableEq, Repr

/-- Result of `GfxState::render` (`Result<(), wgpu::SurfaceError>`). -/
inductive RenderResult where
  | ok
  | err (e : SurfaceError)
deriving DecidableEq, Repr

/-- Outcome of `surface.get_current_texture()`, an environment input. -/
inductive AcquireOutcome where
  | success
  | failure (e : SurfaceError)
deriving DecidableEq, Repr

/-- Observable actions of the program, in the order they are performed. -/
inductive Action where
  | configure (cfg : SurfaceConfiguration)
  | renderPass (p : RenderPass)
  | resizeCall (sz : Size)
  | updateCall
  | renderCall (res : RenderResult)
  | logError (e : SurfaceError)
  | exitLoop
  | requestRedraw
deriving DecidableEq, Repr

/-- The pure fields of `GfxState`; the opaque device/queue/pipeline
handles carry no state the claims depend on. -/
structure GfxState where
  config : SurfaceConfiguration
  size : Size
deriving DecidableEq, Repr

/-- Embedding of `GfxState::new` (lines 31–157): `size` is the window's inner size;
the color format is the first sRGB-capable entry of
`surface_caps.formats`, falling back to `formats[0]`; the surface is
configured with that format, the window size, `present_modes[0]` and
`alpha_modes[0]`.  Indexing an empty capability list is a panic,
modelled as `none`. -/
def GfxState.new (size : Size) (caps : SurfaceCaps) :
    Option (GfxState × List Action) :=
  match caps.formats, caps.present_modes, caps.alpha_modes with
  | f0 :: _, p0 :: _, a0 :: _ =>
    let surface_format := (caps.formats.find? (fun f => f.srgb)).getD f0
    let config : SurfaceConfiguration :=
      { format := surface_format
        width := size.width
        height := size.height
        present_mode := p0
        alpha_mode := a0 }
    some ({ config := config, size := size }, [Action.configure config])
  | _, _, _ => none

/-- Embedding of `GfxState::resize` (lines 163–170): when both dimensions are
positive, store the new size, update the configuration's dimensions and
reconfigure the surface; otherwise do nothing. -/
def GfxState.resize (s : GfxState) (new_size : Size) :
    GfxState × List Action :=
  if 0 < new_size.width ∧ 0 < new_size.height then
    let config :=
      { s.config with width := new_size.width, height := new_size.height }
    ({ config := config, size := new_size }, [Action.configure config])
  else
    (s, [])

/-- Embedding of `GfxState::update` (lines 176–178): a no-op hook. -/
def GfxState.update (s : GfxState) : GfxState := s

/-- The clear color of the render pass (lines 194–199). -/
def clearColor : Color := { r := 0.1, g := 0.2, b := 0.3, a := 1.0 }

/-- The single render pass recorded by `GfxState::render` (lines
188–210): clear to `clearColor`, bind the fixed pipeline, and
`draw(0..3, 0..1)`; no vertex or index buffer is ever bound. -/
def trianglePass : RenderPass :=
  { clear := clearColor
    cmds := [PassCmd.setPipeline, PassCmd.draw 0 3 0 1] }

/-- Embedding of `GfxState::render` (lines 180–217): acquiring the next texture may
fail with a `SurfaceError`, propagated by `?`; on success exactly one
render pass is recorded and the frame is submitted and presented.  The
state itself is not mutated. -/
def GfxState.render (_s : GfxState) (acquire : AcquireOutcome) :
    RenderResult × List Action :=
  match acquire with
  | AcquireOutcome.failure e => (RenderResult.err e, [])
  | AcquireOutcome.success =>
      (RenderResult.ok, [Action.renderPass trianglePass])

/-- A physical key (`winit::keyboard::PhysicalKey`), abstracted to
whether it is `KeyCode::Escape`. -/
inductive Key where
  | escape
  | otherKey (code : Nat)
deriving DecidableEq, Repr

/-- The `winit::event::ElementState` variants. -/
inductive ElementState where
  | pressed
  | released
deriving DecidableEq, Repr

/-- The window events the handler distinguishes
(`winit::event::WindowEvent`); everything else falls into the wildcard
arm, abstracted as `otherEvent`. -/
inductive WindowEvent where
  | closeRequested
  | keyboardInput (key : Key) (key_state : ElementState)
  | resized (size : Size)
  | scaleFactorChanged
  | redrawRequested
  | otherEvent (code : Nat)
deriving DecidableEq, Repr

/-- Embedding of `GfxState::input` (lines 172–174): always reports unhandled. -/
def GfxState.input (_s : GfxState) (_event : WindowEvent) : Bool := false

/-- Embedding of `WindowGfxState` (lines 220–223): the live window (abstracted to its
identifier) paired with its graphics state. -/
structure WindowGfxState where
  window_id : Nat
  gfx_state : GfxState
deriving DecidableEq, Repr

/-- Embedding of `Application` (lines 263–266). -/
structure Application where
  state : Option WindowGfxState
deriving DecidableEq, Repr

/-- Embedding of `Application::window_event` (lines 275–324).  Returns the new
application state, whether `event_loop.exit()` was called, and the
action trace of the invocation.  `acquire` is the environment's answer
to `get_current_texture` should this event render. -/
def Application.window_event (app : Application) (window_id : Nat)
    (event : WindowEvent) (acquire : AcquireOutcome) :
    Application × Bool × List Action :=
  match app.state with
  | none => (app, false, [])
  | some st =>
    if window_id == st.window_id && !(st.gfx_state.input event) then
      match event with
      | WindowEvent.closeRequested =>
          (app, true, [Action.exitLoop])
      | WindowEvent.keyboardInput Key.escape ElementState.pressed =>
          (app, true, [Action.exitLoop])
      | WindowEvent.resized physical_size =>
          let r := st.gfx_state.resize physical_size
          ({ state := some { st with gfx_state := r.1 } }, false,
            Action.resizeCall physical_size :: r.2)
      | WindowEvent.scaleFactorChanged =>
          (app, false, [])
      | WindowEvent.redrawRequested =>
          if window_id == st.window_id then
            let g0 := st.gfx_state.update
            let r := g0.render acquire
            match r.1 with
            | RenderResult.ok =>
                ({ state := some { st with gfx_state := g0 } }, false,
                  Action.updateCall :: Action.renderCall r.1 ::
                    (r.2 ++ [Action.requestRedraw]))
            | RenderResult.err SurfaceError.lost =>
                let rc := g0.resize g0.size
                ({ state := some { st with gfx_state := rc.1 } }, false,
                  Action.updateCall :: Action.renderCall r.1 ::
                    Action.resizeCall g0.size ::
                      (rc.2 ++ [Action.requestRedraw]))
            | RenderResult.err SurfaceError.outOfMemory =>
                ({ state := some { st with gfx_state := g0 } }, true,
                  Action.updateCall :: Action.renderCall r.1 ::
                    Action.logError SurfaceError.outOfMemory ::
                      Action.exitLoop :: [Action.requestRedraw])
            | RenderResult.err e =>
                ({ state := some { st with gfx_state := g0 } }, false,
                  Action.updateCall :: Action.renderCall r.1 ::
                    Action.logError e :: [Action.requestRedraw])
          else (app, false, [])
      | _ => (app, false, [])
    else (app, false, [])

/-- One delivered window event with its environment input. -/
structure EventInput where
  window_id : Nat
  event : WindowEvent
  acquire : AcquireOutcome
deriving DecidableEq, Repr

/-- The winit poll loop driving `window_event`: events are delivered in
order and delivery stops once `event_loop.exit()` has been called.
Returns the final application state, whether the loop exited, and the
concatenated action trace. -/
def runEvents (app : Application) :
    List EventInput → Application × Bool × List Action
  | [] => (app, false, [])
  | ei :: rest =>
    let r := app.window_event ei.window_id ei.event ei.acquire
    if r.2.1 then (r.1, true, r.2.2)
    else
      let rr := runEvents r.1 rest
      (rr.1, rr.2.1, r.2.2 ++ rr.2.2)

/-- The surface configurations passed to `surface.configure` in a trace. -/
def configuresOf (acts : List Action) : List SurfaceConfiguration :=
  acts.filterMap fun a =>
    match a with
    | Action.configure c => some c
    | _ => none

/-- The render passes recorded in a trace. -/
def passesOf (acts : List Action) : List RenderPass :=
  acts.filterMap fun a =>
    match a with
    | Action.renderPass p => some p
    | _ => none

/-- The clear colors of the render passes recorded in a trace. -/
def clearsOf (acts : List Action) : List Color :=
  (passesOf acts).map RenderPass.clear

/-- Whether an action is an invocation of `GfxState::render`. -/
def Action.isRenderCall : Action → Bool
  | Action.renderCall _ => true
  | _ => false

/-- Whether an action is an invocation of `GfxState::resize`. -/
def Action.isResizeCall : Action → Bool
  | Action.resizeCall _ => true
  | _ => false

/-- How many `GfxState::render` invocations a trace contains. -/
def renderCallCount (acts : List Action) : Nat :=
  (acts.filter Action.isRenderCall).length

/-- Whether a pass command is a draw call. -/
def PassCmd.isDraw : PassCmd → Bool
  | PassCmd.draw _ _ _ _ => true
  | _ => false

/-- Whether a pass command binds a vertex or index buffer. -/
def PassCmd.isBufferBind : PassCmd → Bool
  | PassCmd.setVertexBuffer _ => true
  | PassCmd.setIndexBuffer => true
  | _ => false

/-- Number of vertices covered by a draw command's vertex range. -/
def PassCmd.vertexCount : PassCmd → Nat
  | PassCmd.draw vs ve _ _ => ve - vs
  | _ => 0

/-- Number of instances covered by a draw command's instance range. -/
def PassCmd.instanceCount : PassCmd → Nat
  | PassCmd.draw _ _ i0 i1 => i1 - i0
  | _ => 0

/-- Both dimensions of a size are strictly positive. -/
def sizePos (sz : Size) : Prop := 0 < sz.width ∧ 0 < sz.height

/-- Both dimensions of a surface configuration are strictly positive. -/
def configPos (c : SurfaceConfiguration) : Prop := 0 < c.width ∧ 0 < c.height

/-- Invariant of the graphics state: the stored size and the stored
configuration both have strictly positive dimensions. -/
def gfxInv (g : GfxState) : Prop := sizePos g.size ∧ configPos g.config

/-- Invariant of the application: whenever a window/manager pair is
present, its graphics state satisfies `gfxInv`. -/
def appInv (app : Application) : Prop :=
  ∀ st, app.state = some st → gfxInv st.gfx_state

/-- Every `surface.configure` call in the trace has strictly positive
width and height. -/
def goodActions (acts : List Action) : Prop :=
  ∀ c ∈ configuresOf acts, configPos c

/-- The effect trace of `GfxState::new`, empty when creation panics. -/
def initTrace (sz : Size) (caps : SurfaceCaps) : List Action :=
  match GfxState.new sz caps with
  | none => []
  | some r => r.2

/-- First sRGB-capable entry of a format list (spec wording: "selecting
the first sRGB-capable format from the surface's supported-format
list"). -/
def firstSrgb : List TextureFormat → Option TextureFormat
  | [] => none
  | f :: fs => if f.srgb then some f else firstSrgb fs

/-- The format-selection policy as the spec words it: the first
sRGB-capable supported format, falling back to the first supported
format when none is sRGB. -/
def chooseFormatSpec (l : List TextureFormat) : Option TextureFormat :=
  match firstSrgb l with
  | some f => some f
  | none => l.head?

/-- A concrete texture format for witnesses. -/
def testFormat : TextureFormat := { code := 7, srgb := true }

/-- A concrete graphics state for witnesses. -/
def testState : GfxState :=
  { config :=
      { format := testFormat, width := 800, height := 800,
        present_mode := 0, alpha_mode := 0 }
    size := { width := 800, height := 800 } }

/-- A concrete application holding a live window (id 1) for witnesses. -/
def testApp : Application :=
  { state := some { window_id := 1, gfx_state := testState } }

/-- Concrete surface capabilities for witnesses: the second format is
the sRGB one. -/
def testCaps : SurfaceCaps :=
  { formats := [{ code := 3, srgb := false }, { code := 7, srgb := true }]
    present_modes := [5, 6]
    alpha_modes := [9] }

/-- Capabilities with a single format, used by the zero-size scenario. -/
def zeroCaps : SurfaceCaps :=
  { formats := [testFormat]
    present_modes := [0]
    alpha_modes := [0] }

/-- Claim C1: a resize with both dimensions strictly positive updates
the stored size and the configuration's width/height to the new values
and reconfigures the surface; a resize with a zero dimension leaves the
state exactly as it was and performs no configuration; and repeating an
identical resize leaves the state at the most recently applied values
(idempotence). -/
theorem C1_resize_contract (s : GfxState) (sz : Size) :
    (0 < sz.width ∧ 0 < sz.height →
      (s.resize sz).1.size = sz ∧
      (s.resize sz).1.config.width = sz.width ∧
      (s.resize sz).1.config.height = sz.height ∧
      (s.resize sz).2 = [Action.configure (s.resize sz).1.config]) ∧
    (sz.width = 0 ∨ sz.height = 0 → s.resize sz = (s, [])) ∧
    ((s.resize sz).1.resize sz).1 = (s.resize sz).1 := by
  refine ⟨?_, ?_, ?_⟩
  · intro h
    simp [GfxState.resize, h]
  · intro h
    have h' : ¬ (0 < sz.width ∧ 0 < sz.height) := by omega
    simp [GfxState.resize, h']
  · by_cases h : 0 < sz.width ∧ 0 < sz.height <;>
      simp [GfxState.resize, h]

/-- Witness for C1 at concrete inputs: a positive resize stores the new
size, a zero-width resize changes nothing. -/
theorem C1_resize_contract_witness :
    (testState.resize { width := 640, height := 480 }).1.size
        = { width := 640, height := 480 } ∧
    testState.resize { width := 0, height := 480 } = (testState, []) :=
  ⟨((C1_resize_contract testState { width := 640, height := 480 }).1
      (by decide)).1,
    (C1_resize_contract testState { width := 0, height := 480 }).2.1
      (Or.inl rfl)⟩

/-- Claim C5: every successful render records exactly one render pass,
whose command list contains exactly one draw call, covering vertices
0..3 (3 vertices) and instances 0..1 (1 instance), and binds no vertex
or index buffer. -/
theorem C5_single_triangle_draw (s : GfxState) :
    passesOf (s.render AcquireOutcome.success).2 = [trianglePass] ∧
    trianglePass.cmds.filter PassCmd.isDraw = [PassCmd.draw 0 3 0 1] ∧
    PassCmd.vertexCount (PassCmd.draw 0 3 0 1) = 3 ∧
    PassCmd.instanceCount (PassCmd.draw 0 3 0 1) = 1 ∧
    trianglePass.cmds.filter PassCmd.isBufferBind = [] :=
  ⟨rfl, rfl, rfl, rfl, rfl⟩

/-- Claim C6: the clear color of a render does not depend on the
graphics state, and on success it is exactly
red 0.1, green 0.2, blue 0.3, alpha 1.0. -/
theorem C6_clear_color_constant (s t : GfxState) (acq : AcquireOutcome) :
    clearsOf (s.render acq).2 = clearsOf (t.render acq).2 ∧
    clearsOf (s.render AcquireOutcome.success).2
      = [{ r := 0.1, g := 0.2, b := 0.3, a := 1.0 }] :=
  ⟨rfl, rfl⟩

/-- Claim C7: while a window/manager pair is live, a close request or an
Escape key-down event on the live window makes the handler call
`event_loop.exit()`, while an Escape key-up event does not. -/
theorem C7_close_and_escape (app : Application) (st : WindowGfxState)
    (acq : AcquireOutcome) (h : app.state = some st) :
    (app.window_event st.window_id WindowEvent.closeRequested acq).2.1
        = true ∧
    (app.window_event st.window_id
        (WindowEvent.keyboardInput Key.escape ElementState.pressed)
        acq).2.1 = true ∧
    (app.window_event st.window_id
        (WindowEvent.keyboardInput Key.escape ElementState.released)
        acq).2.1 = false := by
  refine ⟨?_, ?_, ?_⟩ <;>
    simp [Application.window_event, h, GfxState.input]

/-- Witness for C7 at the concrete test application. -/
theorem C7_close_and_escape_witness :
    (testApp.window_event 1 WindowEvent.closeRequested
        AcquireOutcome.success).2.1 = true ∧
    (testApp.window_event 1
        (WindowEvent.keyboardInput Key.escape ElementState.pressed)
        AcquireOutcome.success).2.1 = true ∧
    (testApp.window_event 1
        (WindowEvent.keyboardInput Key.escape ElementState.released)
        AcquireOutcome.success).2.1 = false :=
  C7_close_and_escape testApp { window_id := 1, gfx_state := testState }
    AcquireOutcome.success rfl

/-- Claim C8: an event whose window identifier differs from the live
window's identifier changes nothing: the application state is returned
unchanged, the loop is not exited, and no action is performed. -/
theorem C8_wrong_window_ignored (app : Application) (st : WindowGfxState)
    (wid : Nat) (ev : WindowEvent) (acq : AcquireOutcome)
    (h : app.state = some st) (hne : wid ≠ st.window_id) :
    app.window_event wid ev acq = (app, false, []) := by
  have hb : (wid == st.window_id) = false := by
    simpa using hne
  simp [Application.window_event, h, hb]

/-- Witness for C8: a close request addressed to window 2 leaves the
test application (whose window has id 1) untouched. -/
theorem C8_wrong_window_ignored_witness :
    testApp.window_event 2 WindowEvent.closeRequested
        AcquireOutcome.success = (testApp, false, []) :=
  C8_wrong_window_ignored testApp { window_id := 1, gfx_state := testState }
    2 WindowEvent.closeRequested AcquireOutcome.success rfl (by decide)

/-- Claim C3: when a render fails with a surface-lost error (and the
stored size is positive, as every reachable state guarantees), the
handler's action right after the failed render call is a single resize
call whose argument is the currently stored size, and that resize
reconfigures the surface at exactly those dimensions. -/
theorem C3_lost_resizes_to_current_size (app : Application)
    (st : WindowGfxState) (h : app.state = some st)
    (hpos : 0 < st.gfx_state.size.width ∧ 0 < st.gfx_state.size.height) :
    (app.window_event st.window_id WindowEvent.redrawRequested
        (AcquireOutcome.failure SurfaceError.lost)).2.2 =
      [Action.updateCall,
       Action.renderCall (RenderResult.err SurfaceError.lost),
       Action.resizeCall st.gfx_state.size,
       Action.configure
         { st.gfx_state.config with
             width := st.gfx_state.size.width,
             height := st.gfx_state.size.height },
       Action.requestRedraw] ∧
    ((app.window_event st.window_id WindowEvent.redrawRequested
        (AcquireOutcome.failure SurfaceError.lost)).2.2).filter
        Action.isResizeCall
      = [Action.resizeCall st.gfx_state.size] := by
  constructor <;>
    simp [Application.window_event, h, GfxState.input, GfxState.update,
      GfxState.render, GfxState.resize, hpos, Action.isResizeCall,
      List.filter]

/-- Witness for C3 at the concrete test application. -/
theorem C3_lost_resizes_to_current_size_witness :
    (testApp.window_event 1 WindowEvent.redrawRequested
        (AcquireOutcome.failure SurfaceError.lost)).2.2 =
      [Action.updateCall,
       Action.renderCall (RenderResult.err SurfaceError.lost),
       Action.resizeCall { width := 800, height := 800 },
       Action.configure
         { format := testFormat, width := 800, height := 800,
           present_mode := 0, alpha_mode := 0 },
       Action.requestRedraw] := by
  have h := C3_lost_resizes_to_current_size testApp
    { window_id := 1, gfx_state := testState } rfl (by decide)
  exact h.1

/-- Claim C10: whatever the acquisition outcome — success, surface lost,
out of memory, or any transient error — handling a redraw-requested
event for the live window starts with the update hook and the render
call and ends by requesting another redraw. -/
theorem C10_redraw_always_requeued (app : Application)
    (st : WindowGfxState) (acq : AcquireOutcome)
    (h : app.state = some st) :
    ((app.window_event st.window_id WindowEvent.redrawRequested
        acq).2.2).getLast? = some Action.requestRedraw ∧
    ((app.window_event st.window_id WindowEvent.redrawRequested
        acq).2.2).head? = some Action.updateCall ∧
    ((app.window_event st.window_id WindowEvent.redrawRequested
        acq).2.2)[1]?
      = some (Action.renderCall (st.gfx_state.update.render acq).1) := by
  cases acq with
  | success =>
      simp [Application.window_event, h, GfxState.input, GfxState.update,
        GfxState.render]
  | failure e =>
      cases e
      case lost =>
        by_cases hp : 0 < st.gfx_state.size.width ∧
            0 < st.gfx_state.size.height <;>
          simp [Application.window_event, h, GfxState.input,
            GfxState.update, GfxState.render, GfxState.resize, hp]
      all_goals
        simp [Application.window_event, h, GfxState.input, GfxState.update,
          GfxState.render]

/-- Witness for C10: after an out-of-memory failure the handler still
requests another redraw. -/
theorem C10_redraw_always_requeued_witness :
    ((testApp.window_event 1 WindowEvent.redrawRequested
        (AcquireOutcome.failure SurfaceError.outOfMemory)).2.2).getLast?
      = some Action.requestRedraw := by
  have h := C10_redraw_always_requeued testApp
    { window_id := 1, gfx_state := testState }
    (AcquireOutcome.failure SurfaceError.outOfMemory) rfl
  exact h.1

/-- Claim C4: when a render fails with an out-of-memory error the
handler calls `event_loop.exit()`, the loop ends in its terminal state,
and no matter what events were still queued, the complete trace contains
exactly one render call — the failed one — so no further render is ever
issued. -/
theorem C4_oom_terminates_loop (app : Application) (st : WindowGfxState)
    (rest : List EventInput) (h : app.state = some st) :
    (runEvents app
        ({ window_id := st.window_id, event := WindowEvent.redrawRequested,
           acquire := AcquireOutcome.failure SurfaceError.outOfMemory }
          :: rest)).2.1 = true ∧
    Action.exitLoop ∈
      (runEvents app
        ({ window_id := st.window_id, event := WindowEvent.redrawRequested,
           acquire := AcquireOutcome.failure SurfaceError.outOfMemory }
          :: rest)).2.2 ∧
    renderCallCount
      (runEvents app
        ({ window_id := st.window_id, event := WindowEvent.redrawRequested,
           acquire := AcquireOutcome.failure SurfaceError.outOfMemory }
          :: rest)).2.2 = 1 := by
  refine ⟨?_, ?_, ?_⟩ <;>
    simp [runEvents, Application.window_event, h, GfxState.input,
      GfxState.update, GfxState.render, renderCallCount,
      Action.isRenderCall, List.filter]

/-- Witness for C4: an out-of-memory frame followed by a queued redraw
still yields exactly one render call and a terminated loop. -/
theorem C4_oom_terminates_loop_witness :
    (runEvents testApp
        ({ window_id := 1, event := WindowEvent.redrawRequested,
           acquire := AcquireOutcome.failure SurfaceError.outOfMemory }
          :: [{ window_id := 1, event := WindowEvent.redrawRequested,
                acquire := AcquireOutcome.success }])).2.1 = true ∧
    renderCallCount
      (runEvents testApp
        ({ window_id := 1, event := WindowEvent.redrawRequested,
           acquire := AcquireOutcome.failure SurfaceError.outOfMemory }
          :: [{ window_id := 1, event := WindowEvent.redrawRequested,
                acquire := AcquireOutcome.success }])).2.2 = 1 := by
  have h := C4_oom_terminates_loop testApp
    { window_id := 1, gfx_state := testState }
    [{ window_id := 1, event := WindowEvent.redrawRequested,
       acquire := AcquireOutcome.success }] rfl
  exact ⟨h.1, h.2.2⟩

/-- The spec-side first-sRGB search agrees with the source's
`find(|f| f.is_srgb())`. -/
theorem firstSrgb_eq_find (l : List TextureFormat) :
    firstSrgb l = l.find? (fun f => f.srgb) := by
  induction l with
  | nil => rfl
  | cons f fs ih =>
      cases hs : f.srgb <;>
        simp [firstSrgb, List.find?_cons, hs, ih]

/-- On a non-empty list the spec-side policy is the source's
`find(...).unwrap_or(formats[0])`. -/
theorem chooseFormatSpec_cons (f0 : TextureFormat)
    (fs : List TextureFormat) :
    chooseFormatSpec (f0 :: fs) =
      some (((f0 :: fs).find? (fun f => f.srgb)).getD f0) := by
  unfold chooseFormatSpec
  rw [firstSrgb_eq_find]
  cases hfind : (f0 :: fs).find? (fun f => f.srgb) <;> simp [hfind]

/-- Claim C9: with non-empty capability lists, initialization succeeds
and configures the surface with the first sRGB-capable supported format
(falling back to the first supported format), the window's inner size,
the first supported presentation mode and the first supported
alpha-compositing mode; the configure call carries exactly that
configuration. -/
theorem C9_initial_configuration (sz : Size) (caps : SurfaceCaps)
    (f0 : TextureFormat) (fs : List TextureFormat) (p0 a0 : Nat)
    (ps ams : List Nat)
    (hf : caps.formats = f0 :: fs) (hp : caps.present_modes = p0 :: ps)
    (ha : caps.alpha_modes = a0 :: ams) :
    ∃ g effs, GfxState.new sz caps = some (g, effs) ∧
      chooseFormatSpec caps.formats = some g.config.format ∧
      g.config.width = sz.width ∧
      g.config.height = sz.height ∧
      g.config.present_mode = p0 ∧
      g.config.alpha_mode = a0 ∧
      g.size = sz ∧
      effs = [Action.configure g.config] := by
  rcases caps with ⟨formats, pms, ams2⟩
  simp only at hf hp ha
  subst hf hp ha
  refine ⟨_, _, rfl, ?_, rfl, rfl, rfl, rfl, rfl, rfl⟩
  rw [chooseFormatSpec_cons]

/-- Witness for C9 at concrete capabilities whose second format is the
sRGB one. -/
theorem C9_initial_configuration_witness :
    ∃ g effs,
      GfxState.new { width := 800, height := 800 } testCaps
        = some (g, effs) ∧
      chooseFormatSpec testCaps.formats = some g.config.format ∧
      g.config.width = 800 ∧
      g.config.height = 800 ∧
      g.config.present_mode = 5 ∧
      g.config.alpha_mode = 9 ∧
      g.size = { width := 800, height := 800 } ∧
      effs = [Action.configure g.config] :=
  C9_initial_configuration { width := 800, height := 800 } testCaps
    { code := 3, srgb := false } [{ code := 7, srgb := true }] 5 9 [6] []
    rfl rfl rfl

/-- The predicate `goodActions` splits over trace concatenation. -/
theorem goodActions_append {l1 l2 : List Action}
    (h1 : goodActions l1) (h2 : goodActions l2) :
    goodActions (l1 ++ l2) := by
  intro c hc
  simp only [configuresOf, List.filterMap_append, List.mem_append] at hc
  rcases hc with hc | hc
  · exact h1 c hc
  · exact h2 c hc

/-- The operation `GfxState.resize` preserves the positivity invariant and emits only
positive configurations. -/
theorem resize_preserves_inv (g : GfxState) (sz : Size) (hg : gfxInv g) :
    gfxInv (g.resize sz).1 ∧ goodActions (g.resize sz).2 := by
  by_cases hp : 0 < sz.width ∧ 0 < sz.height
  · constructor
    · simp [GfxState.resize, hp, gfxInv, sizePos, configPos]
    · intro c hc
      simp [GfxState.resize, hp, configuresOf] at hc
      subst hc
      exact ⟨hp.1, hp.2⟩
  · constructor
    · simpa [GfxState.resize, hp] using hg
    · intro c hc
      simp [GfxState.resize, hp, configuresOf] at hc

/-- The handler `Application.window_event` preserves the positivity invariant and
emits only positive configurations. -/
theorem window_event_preserves_inv (app : Application) (wid : Nat)
    (ev : WindowEvent) (acq : AcquireOutcome) (h : appInv app) :
    appInv (app.window_event wid ev acq).1 ∧
    goodActions (app.window_event wid ev acq).2.2 := by
  cases happ : app.state with
  | none =>
      constructor
      · simpa [Application.window_event, happ] using h
      · intro c hc
        simp [Application.window_event, happ, configuresOf] at hc
  | some st =>
      have hg : gfxInv st.gfx_state := h st happ
      by_cases hw : (wid == st.window_id) = true
      · cases ev with
        | closeRequested =>
            constructor
            · intro st' hst'
              simp [Application.window_event, happ, hw, GfxState.input]
                at hst'
              subst hst'
              exact h st happ
            · intro c hc
              simp [Application.window_event, happ, hw, GfxState.input,
                configuresOf] at hc
        | keyboardInput k ks =>
            cases k with
            | escape =>
                cases ks <;>
                · constructor
                  · intro st' hst'
                    simp [Application.window_event, happ, hw,
                      GfxState.input] at hst'
                    subst hst'
                    exact h st happ
                  · intro c hc
                    simp [Application.window_event, happ, hw,
                      GfxState.input, configuresOf] at hc
            | otherKey n =>
                constructor
                · intro st' hst'
                  cases ks <;>
                    simp [Application.window_event, happ, hw,
                      GfxState.input] at hst' <;>
                    (subst hst'; exact h st happ)
                · intro c hc
                  cases ks <;>
                    simp [Application.window_event, happ, hw,
                      GfxState.input, configuresOf] at hc
        | resized sz =>
            have hr := resize_preserves_inv st.gfx_state sz hg
            constructor
            · intro st' hst'
              simp [Application.window_event, happ, hw, GfxState.input]
                at hst'
              subst hst'
              exact hr.1
            · intro c hc
              simp [Application.window_event, happ, hw, GfxState.input,
                configuresOf] at hc
              exact hr.2 c (by simpa [configuresOf] using hc)
        | scaleFactorChanged =>
            constructor
            · intro st' hst'
              simp [Application.window_event, happ, hw, GfxState.input]
                at hst'
              subst hst'
              exact h st happ
            · intro c hc
              simp [Application.window_event, happ, hw, GfxState.input,
                configuresOf] at hc
        | redrawRequested =>
            cases acq with
            | success =>
                constructor
                · intro st' hst'
                  simp [Application.window_event, happ, hw,
                    GfxState.input, GfxState.update, GfxState.render]
                    at hst'
                  subst hst'
                  exact h st happ
                · intro c hc
                  simp [Application.window_event, happ, hw,
                    GfxState.input, GfxState.update, GfxState.render,
                    configuresOf, trianglePass] at hc
            | failure e =>
                cases e with
                | lost =>
                    have hr := resize_preserves_inv st.gfx_state
                      st.gfx_state.size hg
                    constructor
                    · intro st' hst'
                      simp [Application.window_event, happ, hw,
                        GfxState.input, GfxState.update, GfxState.render]
                        at hst'
                      subst hst'
                      exact hr.1
                    · intro c hc
                      simp [Application.window_event, happ, hw,
                        GfxState.input, GfxState.update, GfxState.render,
                        configuresOf] at hc
                      exact hr.2 c (by simpa [configuresOf,
                        GfxState.update] using hc)
                | timeout =>
                    constructor
                    · intro st' hst'
                      simp [Application.window_event, happ, hw,
                        GfxState.input, GfxState.update, GfxState.render]
                        at hst'
                      subst hst'
                      exact h st happ
                    · intro c hc
                      simp [Application.window_event, happ, hw,
                        GfxState.input, GfxState.update, GfxState.render,
                        configuresOf] at hc
                | outdated =>
                    constructor
                    · intro st' hst'
                      simp [Application.window_event, happ, hw,
                        GfxState.input, GfxState.update, GfxState.render]
                        at hst'
                      subst hst'
                      exact h st happ
                    · intro c hc
                      simp [Application.window_event, happ, hw,
                        GfxState.input, GfxState.update, GfxState.render,
                        configuresOf] at hc
                | outOfMemory =>
                    constructor
                    · intro st' hst'
                      simp [Application.window_event, happ, hw,
                        GfxState.input, GfxState.update, GfxState.render]
                        at hst'
                      subst hst'
                      exact h st happ
                    · intro c hc
                      simp [Application.window_event, happ, hw,
                        GfxState.input, GfxState.update, GfxState.render,
                        configuresOf] at hc
                | otherError =>
                    constructor
                    · intro st' hst'
                      simp [Application.window_event, happ, hw,
                        GfxState.input, GfxState.update, GfxState.render]
                        at hst'
                      subst hst'
                      exact h st happ
                    · intro c hc
                      simp [Application.window_event, happ, hw,
                        GfxState.input, GfxState.update, GfxState.render,
                        configuresOf] at hc
        | otherEvent n =>
            constructor
            · intro st' hst'
              simp [Application.window_event, happ, hw, GfxState.input]
                at hst'
              subst hst'
              exact h st happ
            · intro c hc
              simp [Application.window_event, happ, hw, GfxState.input,
                configuresOf] at hc
      · constructor
        · intro st' hst'
          simp [Application.window_event, happ, hw] at hst'
          subst hst'
          exact h st happ
        · intro c hc
          simp [Application.window_event, happ, hw, configuresOf] at hc

/-- Running any event list from an application satisfying the positivity
invariant keeps the invariant and emits only positive configurations. -/
theorem runEvents_preserves_inv (evts : List EventInput)
    (app : Application) (h : appInv app) :
    appInv (runEvents app evts).1 ∧
    goodActions (runEvents app evts).2.2 := by
  induction evts generalizing app with
  | nil =>
      constructor
      · simpa [runEvents] using h
      · intro c hc
        simp [runEvents, configuresOf] at hc
  | cons ei rest ih =>
      have h1 := window_event_preserves_inv app ei.window_id ei.event
        ei.acquire h
      by_cases hx :
          (app.window_event ei.window_id ei.event ei.acquire).2.1 = true
      · constructor
        · simpa [runEvents, hx] using h1.1
        · simpa [runEvents, hx] using h1.2
      · have h2 := ih _ h1.1
        constructor
        · simpa [runEvents, hx] using h2.1
        · have := goodActions_append h1.2 h2.2
          simpa [runEvents, hx] using this

/-- Claim C2 counterexample: `GfxState::new` copies the window's inner
size into the configuration without any positivity check, so with an
initial inner size of 0×600 the very first `surface.configure` call
carries width 0 — the claim as stated fails for this reachable initial
state. -/
theorem C2_counterexample :
    configuresOf (initTrace { width := 0, height := 600 } zeroCaps) =
      [{ format := testFormat, width := 0, height := 600,
         present_mode := 0, alpha_mode := 0 }] ∧
    ¬ goodActions (initTrace { width := 0, height := 600 } zeroCaps) := by
  refine ⟨rfl, ?_⟩
  intro hga
  have hc := hga
    { format := testFormat, width := 0, height := 600,
      present_mode := 0, alpha_mode := 0 }
    (by decide)
  exact Nat.lt_irrefl 0 hc.1

/-- Claim C2 (amended): provided the window's initial inner size is
strictly positive, every surface configuration ever passed to
`surface.configure` — the very first one built by `GfxState::new` and
every one attempted from any reachable state afterwards — has strictly
positive width and height. -/
theorem C2_amended_configures_positive (sz : Size) (caps : SurfaceCaps)
    (wid : Nat) (g : GfxState) (effs : List Action)
    (evts : List EventInput) (hpos : sizePos sz)
    (hnew : GfxState.new sz caps = some (g, effs)) :
    goodActions effs ∧
    goodActions
      (runEvents { state := some { window_id := wid, gfx_state := g } }
        evts).2.2 := by
  rcases caps with ⟨formats, pms, ams⟩
  rcases formats with _ | ⟨f0, fs⟩
  · simp [GfxState.new] at hnew
  rcases pms with _ | ⟨p0, ps⟩
  · simp [GfxState.new] at hnew
  rcases ams with _ | ⟨a0, ams'⟩
  · simp [GfxState.new] at hnew
  simp only [GfxState.new, Option.some.injEq, Prod.mk.injEq] at hnew
  obtain ⟨hg, heffs⟩ := hnew
  subst hg heffs
  have hgfx : gfxInv
      { config :=
          { format := ((f0 :: fs).find? (fun f => f.srgb)).getD f0,
            width := sz.width, height := sz.height,
            present_mode := p0, alpha_mode := a0 },
        size := sz } :=
    ⟨hpos, hpos.1, hpos.2⟩
  constructor
  · intro c hc
    simp [configuresOf] at hc
    subst hc
    exact ⟨hpos.1, hpos.2⟩
  · have happ : appInv
        { state := some
            { window_id := wid,
              gfx_state :=
                { config :=
                    { format := ((f0 :: fs).find? (fun f => f.srgb)).getD f0,
                      width := sz.width, height := sz.height,
                      present_mode := p0, alpha_mode := a0 },
                  size := sz } } } := by
      intro st hst
      simp only [Option.some.injEq] at hst
      subst hst
      exact hgfx
    exact (runEvents_preserves_inv evts _ happ).2

/-- Witness for the amended C2: from a positive 800×800 initial size,
the initial configure and every configure in a short event run
(a positive resize, a zero resize, a lost frame) are positive. -/
theorem C2_amended_configures_positive_witness :
    goodActions
      [Action.configure
        { format := testFormat, width := 800, height := 800,
          present_mode := 0, alpha_mode := 0 }] ∧
    goodActions
      (runEvents
        { state := some
            { window_id := 3,
              gfx_state :=
                { config :=
                    { format := testFormat, width := 800, height := 800,
                      present_mode := 0, alpha_mode := 0 },
                  size := { width := 800, height := 800 } } } }
        [{ window_id := 3,
           event := WindowEvent.resized { width := 640, height := 480 },
           acquire := AcquireOutcome.success },
         { window_id := 3,
           event := WindowEvent.resized { width := 0, height := 480 },
           acquire := AcquireOutcome.success },
         { window_id := 3, event := WindowEvent.redrawRequested,
           acquire := AcquireOutcome.failure SurfaceError.lost }]).2.2 :=
  C2_amended_configures_positive { width := 800, height := 800 } zeroCaps
    3
    { config :=
        { format := testFormat, width := 800, height := 800,
          present_mode := 0, alpha_mode := 0 },
      size := { width := 800, height := 800 } }
    [Action.configure
      { format := testFormat, width := 800, height := 800,
        present_mode := 0, alpha_mode := 0 }]
    [{ window_id := 3,
       event := WindowEvent.resized { width := 640, height := 480 },
       acquire := AcquireOutcome.success },
     { window_id := 3,
       event := WindowEvent.resized { width := 0, height := 480 },
       acquire := AcquireOutcome.success },
     { window_id := 3, event := WindowEvent.redrawRequested,
       acquire := AcquireOutcome.failure SurfaceError.lost }]
    (by exact ⟨Nat.succ_pos 799, Nat.succ_pos 799⟩) (by decide)

end RustyCubes
